import Mathlib

/-!
Verification of the bucharest-weather-cli repository: a shallow embedding of
the TTL cache contract, the axios retry interceptor, the AI insight engine,
the forecast aggregation, and the template renderer, together with theorems
settling the specification claims.
-/

namespace BWC

/-! ## TTL cache

Modelled from the spec: the cache used by `WeatherAPI` is an instance of the
external `node-cache` library (created in the constructor with
`stdTTL = cacheDuration`, default 300 seconds); its implementation is not part
of this repository, so the key/value store with per-entry write timestamps is
modelled from the spec's contract: `get(key)` returns the stored payload if an
entry exists and `now - writeTimestamp < TTL`, otherwise reports absent;
`set(key, payload)` overwrites unconditionally with the current timestamp. -/

structure TtlCache (α : Type) where
  entries : String → Option (α × Nat)
  ttl : Nat

/-- Modelled from the spec: `set(key, payload)` writes the payload with the
current timestamp, unconditionally overwriting any prior entry for that key. -/
def TtlCache.set (c : TtlCache α) (k : String) (p : α) (now : Nat) : TtlCache α :=
  { c with entries := fun q => if q = k then some (p, now) else c.entries q }

/-- Modelled from the spec: `get(key)` returns the stored payload if an entry
exists and `now - writeTimestamp < TTL`; otherwise reports absent. -/
def TtlCache.get (c : TtlCache α) (k : String) (now : Nat) : Option α :=
  match c.entries k with
  | some (p, w) => if now - w < c.ttl then some p else none
  | none => none

/-- The cache as configured in `WeatherAPI.constructor`: empty, TTL 300 s. -/
def freshCache (α : Type) : TtlCache α := ⟨fun _ => none, 300⟩

/-! ## Resilient fetch (`WeatherAPI.setupRetryLogic`)

The axios response interceptor: on an error it increments `config.retry`
(initialised to 0 by the callers) and, when `config.retry <= retryAttempts`
and the failure is transient (HTTP status >= 500 or `ECONNABORTED`), waits
`2 ^ config.retry` seconds and re-issues the request; otherwise the error is
rejected to the caller.  The retry budget `remaining` below stands for
`retryAttempts - config.retry`, so the source guard
`config.retry + 1 <= retryAttempts` becomes `remaining > 0`. -/

inductive JsErr where
  | http (status : Nat)
  | econnaborted
deriving DecidableEq

/-- The interceptor's retry condition:
`error.response?.status >= 500 || error.code === 'ECONNABORTED'`. -/
def isTransient : JsErr → Bool
  | .http s => 500 ≤ s
  | .econnaborted => true

/-- One interceptor-driven retry loop.  `transport i` is the outcome of the
`i`-th physical request; the second component collects the backoff delays
(`2 ^ retry` seconds, per `Math.pow(2, config.retry) * 1000`). -/
def retryLoop (transport : Nat → Except JsErr α) :
    (remaining attemptIdx retryCount : Nat) → Except JsErr α × List Nat
  | 0, attemptIdx, _ =>
    (match transport attemptIdx with
     | .ok v => (.ok v, [])
     | .error e => (.error e, []))
  | rem + 1, attemptIdx, retryCount =>
    (match transport attemptIdx with
     | .ok v => (.ok v, [])
     | .error e =>
       if isTransient e then
         ((retryLoop transport rem (attemptIdx + 1) (retryCount + 1)).1,
          2 ^ (retryCount + 1) :: (retryLoop transport rem (attemptIdx + 1) (retryCount + 1)).2)
       else (.error e, []))

/-- A request issued with `retry: 0` (as in `getCurrent`/`getForecast`)
against the interceptor configured with `retryAttempts`. -/
def fetchRequest (retryAttempts : Nat) (transport : Nat → Except JsErr α) :
    Except JsErr α × List Nat :=
  retryLoop transport retryAttempts 0 0

/-- A mock transport that fails with HTTP 500 exactly `n` times, then
succeeds. -/
def failNThenOk (n : Nat) : Nat → Except JsErr Unit :=
  fun i => if i < n then .error (.http 500) else .ok ()

/-- A mock transport that always fails with HTTP 404. -/
def always404 : Nat → Except JsErr Unit :=
  fun _ => .error (.http 404)

/-! ## Weather data record

The processed current-conditions object produced by `WeatherAPI.getCurrent`
and consumed by `AIInsights` and `WeatherTemplates`.  Fields that can be
absent upstream default to `0` / `""`, matching the `|| 0` defaults in the
source and the fact that a missing field compares as false in the source's
threshold tests (`undefined > 10` is false). -/

structure WeatherData where
  temp : ℚ := 0
  feels_like : ℚ := 0
  description : String := ""
  main : String := ""
  icon : String := ""
  humidity : ℚ := 0
  pressure : ℚ := 0
  wind_speed : ℚ := 0
  wind_direction : String := ""
  visibility : ℚ := 0
  cloudiness : ℚ := 0
  sunrise : String := ""
  sunset : String := ""
  rain_1h : ℚ := 0
  rain_3h : ℚ := 0
  snow_1h : ℚ := 0
  snow_3h : ℚ := 0
deriving DecidableEq

/-- The repository's own mock record (`WeatherAPI.getMockData`). -/
def mockWeather : WeatherData :=
  { temp := 22, feels_like := 24, description := "parțial înnorat",
    main := "Clouds", icon := "02d", humidity := 65, pressure := 1013,
    wind_speed := 3.2, wind_direction := "NE", visibility := 10,
    cloudiness := 40, sunrise := "06:45:00", sunset := "19:30:00" }

/-! ## AI insight engine (`src/ai-insights.js`) -/

/-- One entry of the alert list produced by `generateSmartAlerts`. -/
structure Alert where
  level : String
  message : String
deriving DecidableEq

/-- The success-level fallback entry `{ level: 'success', message: '✅ Condiții normale' }`. -/
def normalAlert : Alert := ⟨"success", "✅ Condiții normale"⟩

/-- The alert list built by `AIInsights.generateSmartAlerts` before the
`alerts.length > 0 ? alerts : [normal]` fallback: each threshold rule pushes
zero or one entry, in source order. -/
def rawSmartAlerts (w : WeatherData) (airQuality : Option ℕ) (uvIndex : Option ℚ) :
    List Alert :=
  (if w.temp < -5 then [⟨"danger", "🥶 PERICOL: Temperaturi extreme!"⟩]
   else if w.temp > 35 then [⟨"danger", "🔥 PERICOL: Caniculă extremă!"⟩]
   else if w.temp < 0 then [⟨"warning", "❄️ ATENȚIE: Temperaturi sub zero!"⟩]
   else if w.temp > 30 then [⟨"warning", "☀️ ATENȚIE: Temperaturi ridicate!"⟩]
   else [])
  ++ (if w.wind_speed > 20 then [⟨"danger", "💨 PERICOL: Vânt foarte puternic!"⟩]
      else if w.wind_speed > 15 then [⟨"warning", "🌬️ ATENȚIE: Vânt puternic!"⟩]
      else [])
  ++ (if w.rain_1h > 10 then [⟨"warning", "🌧️ ATENȚIE: Ploaie intensă!"⟩] else [])
  ++ (match airQuality with
      | some aqi => if 4 ≤ aqi then [⟨"danger", "😷 PERICOL: Aer foarte poluat!"⟩] else []
      | none => [])
  ++ (match uvIndex with
      | some uv => if uv > 8 then [⟨"warning", "☀️ ATENȚIE: Indice UV ridicat!"⟩] else []
      | none => [])

/-- `AIInsights.generateSmartAlerts`: the rule-generated list, or the single
success entry when no rule fired. -/
def generateSmartAlerts (w : WeatherData) (airQuality : Option ℕ) (uvIndex : Option ℚ) :
    List Alert :=
  let alerts := rawSmartAlerts w airQuality uvIndex
  if alerts.length > 0 then alerts else [normalAlert]

/-- The ordered clothing table `AIInsights.clothingMatrix`:
category name, `[min, max)` temperature range, base advice string. -/
def clothingMatrix : List (String × (ℚ × ℚ) × String) :=
  [("freezing", (-20, 0), "🧥 Echipament de iarnă complet"),
   ("cold", (0, 10), "🧥 Haină groasă, căciulă, mănuși"),
   ("cool", (10, 15), "🧥 Jachetă, pulover"),
   ("mild", (15, 20), "👔 Jachetă ușoară, bluză"),
   ("warm", (20, 25), "👕 Cămașă, blugi"),
   ("hot", (25, 35), "👕 Îmbrăcăminte ușoară, tricou"),
   ("extreme", (35, 50), "🩳 Minim de îmbrăcăminte")]

/-- The `for ... of Object.entries(this.clothingMatrix)` scan in
`getTemperatureCategory`: first entry whose range satisfies
`temp >= min && temp < max`. -/
def firstMatchingCategory (temp : ℚ) : List (String × (ℚ × ℚ) × String) → Option String
  | [] => none
  | e :: rest =>
    if e.2.1.1 ≤ temp ∧ temp < e.2.1.2 then some e.1 else firstMatchingCategory temp rest

/-- `AIInsights.getTemperatureCategory`. -/
def getTemperatureCategory (temp : ℚ) : String :=
  match firstMatchingCategory temp clothingMatrix with
  | some category => category
  | none => if temp < -20 then "freezing" else "extreme"

/-- Name lookup `this.clothingMatrix[category]`. -/
def clothingRuleFor (category : String) : Option (String × (ℚ × ℚ) × String) :=
  clothingMatrix.find? (fun e => e.1 == category)

/-- The modifier clauses collected by `getEnhancedClothingAdvice`, in source
order. -/
def clothingModifiers (w : WeatherData) : List String :=
  (if w.wind_speed > 15 then ["+ protecție vânt"] else [])
  ++ (if w.rain_1h > 0 ∨ w.rain_3h > 0 then ["+ impermeabil"] else [])
  ++ (if w.humidity > 80 then ["+ materiale respirante"] else [])
  ++ (if w.snow_1h > 0 ∨ w.snow_3h > 0 then ["+ ghete antiderapante"] else [])

/-- `AIInsights.getEnhancedClothingAdvice`. -/
def getEnhancedClothingAdvice (w : WeatherData) : String :=
  let category := getTemperatureCategory w.temp
  match clothingRuleFor category with
  | none => "👕 Îmbrăcăminte standard"
  | some rule =>
    let modifiers := clothingModifiers w
    if modifiers.length > 0 then rule.2.2 ++ " " ++ String.intercalate ", " modifiers
    else rule.2.2

/-- JS `String.prototype.includes` for a non-empty pattern. -/
def containsSubstr (s pat : String) : Bool :=
  (s.splitOn pat).length != 1

/-- `AIInsights.getWeatherType`. -/
def getWeatherType (description mainStr : String) : String :=
  let desc := description.toLower
  let mainType := mainStr.toLower
  if containsSubstr desc "ploaie" || mainType == "rain" then "rainy"
  else if containsSubstr desc "senin" || mainType == "clear" then "sunny"
  else "cloudy"

/-- `this.activities.sunny`, keyed by temperature category. -/
def sunnyActivities (tc : String) : Option (List String) :=
  if tc == "hot" then some ["🏊 Înot", "🏖️ Plajă urbană", "🧘 Yoga în parc"]
  else if tc == "warm" then some ["🚴 Cycling", "🏃 Jogging", "⚽ Sport în parc"]
  else if tc == "mild" then some ["🚶 Plimbare lungă", "📸 Fotografie urbană", "🎨 Picnic"]
  else none

/-- `this.activities.cloudy`, keyed by temperature category. -/
def cloudyActivities (tc : String) : Option (List String) :=
  if tc == "warm" then some ["🚴 Ciclism urban", "🏃 Alergare", "🎯 Activități în parc"]
  else if tc == "mild" then some ["🚶 Explorare oraș", "🛍️ Piețe outdoor", "📚 Citit în parc"]
  else none

/-- `this.activities.rainy`: a flat array, used as fallback throughout. -/
def rainyActivities : List String :=
  ["☔ Plimbare cu umbrelă", "🎬 Cinema", "🏛️ Muzee", "📚 Cafenele"]

/-- The fallback chain of `getContextualActivities`:
`activities[weatherType][tempCategory]`, else `activities[weatherType]` when
it is a flat array, else `activities.rainy`. -/
def activityPool (weatherType tempCategory : String) : List String :=
  if weatherType == "sunny" then
    match sunnyActivities tempCategory with
    | some l => l
    | none => rainyActivities
  else if weatherType == "cloudy" then
    match cloudyActivities tempCategory with
    | some l => l
    | none => rainyActivities
  else rainyActivities

/-- The candidate list `getContextualActivities` draws from: the rainy list
when air quality is poor (`aqi >= 4`), the weather-type/temperature pool
otherwise. -/
def activityCandidates (w : WeatherData) (airQuality : Option ℕ) : List String :=
  let tempCategory := getTemperatureCategory w.temp
  let weatherType := getWeatherType w.description w.main
  match airQuality with
  | some aqi => if 4 ≤ aqi then rainyActivities else activityPool weatherType tempCategory
  | none => activityPool weatherType tempCategory

/-- `AIInsights.getContextualActivities`, with `Math.random()` made explicit
as the argument `r` (a real draw in `[0,1)`); the selected activity is
`candidates[Math.floor(r * candidates.length)]`. -/
def getContextualActivities (w : WeatherData) (airQuality : Option ℕ) (r : ℚ) : String :=
  let candidates := activityCandidates w airQuality
  let idx := (Rat.floor (r * candidates.length)).toNat
  "🎯 Activitate recomandată: " ++ candidates.getD idx ""

/-- `AIInsights.getHealthRecommendations`. -/
def getHealthRecommendations (w : WeatherData) (airQuality : Option ℕ) (uvIndex : Option ℚ) :
    String :=
  let recommendations :=
    (if w.temp > 30 then ["💧 Hidratare frecventă", "🧴 Cremă cu SPF", "⏰ Evită 12-16"]
     else if w.temp < 5 then ["🫖 Băuturi calde", "💊 Vitamina C", "🧥 Protecție extremități"]
     else [])
    ++ (if w.humidity > 80 then ["🌬️ Aerisire frecventă", "👔 Materiale naturale"]
        else if w.humidity < 30 then ["🧴 Hidratant pentru piele", "💧 Umidificator"]
        else [])
    ++ (match airQuality with
        | some aqi => if 4 ≤ aqi then ["😷 Mască de protecție", "🏠 Rămâi în interior"] else []
        | none => [])
    ++ (match uvIndex with
        | some uv => if uv > 7 then ["🧴 SPF 50+", "👒 Pălărie", "🕶️ Ochelari UV"] else []
        | none => [])
  if recommendations.length > 0 then String.intercalate ", " recommendations
  else "✅ Condiții normale pentru sănătate"

/-- `this.locations` of `AIInsights`. -/
def parkLocations : List String := ["Herăstrău", "Cișmigiu", "Tineretului", "Bordei"]

/-- Indoor locations of `this.locations`. -/
def indoorLocations : List String := ["AFI Palace", "Baneasa Mall", "ParkLake", "Promenada"]

/-- `AIInsights.getBucharestSpecificAdvice`, with `Math.random()` made
explicit as the argument `r`. -/
def getBucharestSpecificAdvice (w : WeatherData) (r : ℚ) : String :=
  let isRaining := w.rain_1h > 0 ∨ w.rain_3h > 0
  let isCold := w.temp < 10
  let locationAdvice :=
    if isRaining then
      ["🏢 " ++ indoorLocations.getD (Rat.floor (r * indoorLocations.length)).toNat ""]
    else if isCold then ["☕ Cafenele în Centrul Vechi"]
    else ["🌳 Parcul " ++ parkLocations.getD (Rat.floor (r * parkLocations.length)).toNat ""]
  "📍 Locuri recomandate: " ++ String.intercalate ", " locationAdvice

/-- The bundle returned by `AIInsights.generateInsights`. -/
structure Insights where
  clothing : String
  activities : String
  health : String
  alerts : List Alert
  locations : String
deriving DecidableEq

/-- `AIInsights.generateInsights`, with the two `Math.random()` draws made
explicit as `rAct` (activity pick) and `rLoc` (location pick). -/
def generateInsights (w : WeatherData) (airQuality : Option ℕ) (uvIndex : Option ℚ)
    (rAct rLoc : ℚ) : Insights :=
  { clothing := getEnhancedClothingAdvice w,
    activities := getContextualActivities w airQuality rAct,
    health := getHealthRecommendations w airQuality uvIndex,
    alerts := generateSmartAlerts w airQuality uvIndex,
    locations := getBucharestSpecificAdvice w rLoc }

/-! ## Forecast aggregation (`WeatherAPI.getForecast`, daily aggregates) -/

/-- JS `Math.round`: round half away from zero upward,
`Math.round(x) = Math.floor(x + 0.5)`. -/
def jsRound (q : ℚ) : ℤ := Rat.floor (q + 1 / 2)

/-- `Math.round(x * 10) / 10`, the one-decimal rounding used for wind and
precipitation aggregates. -/
def jsRound10 (q : ℚ) : ℚ := (jsRound (q * 10) : ℚ) / 10

/-- JS `Math.min(...arr)` for the non-empty arrays fed by the grouping loop
(the `[]` case is unreachable there and mapped to `0`). -/
def jsMin : List ℚ → ℚ
  | [] => 0
  | x :: xs => xs.foldl min x

/-- JS `Math.max(...arr)`, as `jsMin`. -/
def jsMax : List ℚ → ℚ
  | [] => 0
  | x :: xs => xs.foldl max x

/-- `arr.reduce((a, b) => a + b, 0) / arr.length`. -/
def listMean (l : List ℚ) : ℚ := l.sum / l.length

/-- Insertion of one element into a frequency-sorted list, preserving the
relative order of equal-frequency elements; together with `sortKeyed` this
models the (stable) `Array.prototype.sort` call of `getMostFrequent` with
comparator `arr.filter(v => v === a).length - arr.filter(v => v === b).length`. -/
def insertKeyed (key : α → ℕ) (x : α) : List α → List α
  | [] => [x]
  | y :: ys => if key x ≤ key y then x :: y :: ys else y :: insertKeyed key x ys

/-- Stable sort by a numeric key, ascending. -/
def sortKeyed (key : α → ℕ) : List α → List α
  | [] => []
  | x :: xs => insertKeyed key x (sortKeyed key xs)

/-- `WeatherAPI.getMostFrequent`: sort ascending by occurrence count and
`pop()` the last element. -/
def getMostFrequent (arr : List String) : String :=
  (sortKeyed (fun v => arr.count v) arr).getLastD ""

/-- One 3-hourly sample entry pushed onto `dailyData[date].items`. -/
structure HourlyItem where
  time : String := ""
  temp : ℤ := 0
  description : String := ""
  icon : String := ""
  humidity : ℚ := 0
  wind_speed : ℚ := 0
deriving DecidableEq

/-- One day's accumulated sample lists, as built by the grouping loop of
`getForecast` (parallel pushes for each 3-hourly sample of the day). -/
structure DayData where
  date : String := ""
  dayName : String := ""
  formatted_date : String := ""
  temps : List ℚ := []
  feels_like : List ℚ := []
  descriptions : List String := []
  humidity : List ℚ := []
  wind_speeds : List ℚ := []
  precipitation : List ℚ := []
  items : List HourlyItem := []

/-- The per-day aggregate record produced by `getForecast`. -/
structure ForecastDay where
  date : String := ""
  dayName : String := ""
  temp_min : ℤ := 0
  temp_max : ℤ := 0
  temp_avg : ℤ := 0
  feels_like_avg : ℤ := 0
  description : String := ""
  humidity_avg : ℤ := 0
  wind_speed_avg : ℚ := 0
  wind_speed_max : ℚ := 0
  precipitation_total : ℚ := 0
  hourly : List HourlyItem := []
deriving DecidableEq

/-- The `map` body computing the daily aggregates
(`getForecast`, the `processedForecast` construction). -/
def processDay (d : DayData) : ForecastDay :=
  { date := d.formatted_date,
    dayName := d.dayName,
    temp_min := jsRound (jsMin d.temps),
    temp_max := jsRound (jsMax d.temps),
    temp_avg := jsRound (listMean d.temps),
    feels_like_avg := jsRound (listMean d.feels_like),
    description := getMostFrequent d.descriptions,
    humidity_avg := jsRound (listMean d.humidity),
    wind_speed_avg := jsRound10 (listMean d.wind_speeds),
    wind_speed_max := jsRound10 (jsMax d.wind_speeds),
    precipitation_total := jsRound10 d.precipitation.sum,
    hourly := d.items }

/-- `Object.values(dailyData).slice(0, days).map(...)`. -/
def processForecast (dayList : List DayData) (days : ℕ) : List ForecastDay :=
  (dayList.take days).map processDay

/-- The sample day of the spec's forecast test: temperatures 18, 22, 25 °C. -/
def sampleDay : DayData :=
  { formatted_date := "01 Jan 2026", dayName := "Thursday",
    temps := [18, 22, 25], feels_like := [17, 21, 24],
    descriptions := ["însorit", "însorit", "parțial înnorat"],
    humidity := [60, 55, 50], wind_speeds := [3, 4, 5],
    precipitation := [0, 0, 0] }

/-! ## Template renderer (`src/templates/weather-templates.js`)

Rendering is embedded in the `Except String` monad: a JS `TypeError` raised by
applying a non-existent `chalk` style (or an invalid `boxen` border color, or
`String.prototype.repeat` with a negative count) is an `error` value. -/

/-- The color/style palette of one theme (`this.themes[...]`). -/
structure Theme where
  primary : String
  secondary : String
  accent : String
  success : String
  warning : String
  danger : String
  text : String
deriving DecidableEq

/-- The eight themes of the `WeatherTemplates` constructor, in source order:
(primary, secondary, accent, success, warning, danger, text). -/
def themesTable : List (String × Theme) :=
  [("default", ⟨"blue", "cyan", "yellow", "green", "yellow", "red", "white"⟩),
   ("dark", ⟨"gray", "white", "magenta", "green", "orange", "red", "gray"⟩),
   ("ocean", ⟨"blue", "cyan", "white", "cyan", "yellow", "red", "blue"⟩),
   ("forest", ⟨"green", "yellow", "white", "green", "orange", "red", "green"⟩),
   ("sunset", ⟨"red", "orange", "yellow", "orange", "yellow", "red", "orange"⟩),
   ("cyberpunk", ⟨"magenta", "cyan", "green", "green", "yellow", "red", "magenta"⟩),
   ("minimal", ⟨"white", "gray", "white", "white", "white", "white", "white"⟩),
   ("rainbow", ⟨"rainbow", "rainbow", "rainbow", "green", "yellow", "red", "rainbow"⟩)]

/-- The own-property part of the `this.themes[name]` access: the theme stored
under `name` in the object literal, if any.  (A JS property access also walks
the prototype chain; the inherited `Object.prototype` members are covered by
`themesAccess` below.) -/
def findTheme (name : String) : Option Theme :=
  (themesTable.find? (fun e => e.1 == name)).map (fun e => e.2)

/-- The theme keys, in source order. -/
def themeKeys : List String :=
  ["default", "dark", "ocean", "forest", "sunset", "cyberpunk", "minimal", "rainbow"]

/-- A theme by name, for concrete instantiations. -/
def themeOf (name : String) : Theme :=
  (findTheme name).getD ⟨"", "", "", "", "", "", ""⟩

/-- `WeatherTemplates.getColor`: a palette entry by role name, falling back to
the `text` entry. -/
def getColor (th : Theme) (ty : String) : String :=
  if ty == "primary" then th.primary
  else if ty == "secondary" then th.secondary
  else if ty == "accent" then th.accent
  else if ty == "success" then th.success
  else if ty == "warning" then th.warning
  else if ty == "danger" then th.danger
  else th.text

/-- The style names the `chalk` library actually defines; `chalk[c]` is
`undefined` for any other name, so calling it raises a `TypeError`. -/
def chalkStyles : List String :=
  ["black", "red", "green", "yellow", "blue", "magenta", "cyan", "white",
   "gray", "grey", "blackBright", "redBright", "greenBright", "yellowBright",
   "blueBright", "magentaBright", "cyanBright", "whiteBright"]

/-- `chalk[color](s)` (also covering `chalk[color].bold(s)` chains): the text
styled, or the `TypeError` of calling `undefined`.  The ANSI escape codes
added around the text are abstracted away. -/
def chalkApply (color : String) (s : String) : Except String String :=
  if chalkStyles.contains color then .ok s else .error ("chalk." ++ color ++ " is not a function")

/-- `s.repeat(n)` for a known non-negative count. -/
def repeatStr (s : String) (n : ℕ) : String :=
  String.join (List.replicate n s)

/-- JS `String.prototype.repeat`: throws `RangeError` on a negative count. -/
def jsRepeat (s : String) (n : ℤ) : Except String String :=
  if n < 0 then .error "Invalid count value" else .ok (repeatStr s n.toNat)

/-- JS `String.prototype.padEnd` with spaces. -/
def padEnd (s : String) (n : ℕ) : String :=
  s ++ String.mk (List.replicate (n - s.length) ' ')

/-- Modelled from the spec: the external `figlet` library's `textSync` banner,
abstracted to its (non-empty) text. -/
def figletText (s : String) : String := s

/-- Modelled from the spec: the external `boxen` library frames content in a
border; it validates the `borderColor` option against the chalk styles and
throws for an unknown one.  The frame glyphs are abstracted. -/
def boxenWrap (title borderColor content : String) : Except String String :=
  if chalkStyles.contains borderColor then
    .ok ("╔═ " ++ title ++ " ═╗\n" ++ content ++ "\n╚═══╝")
  else .error (borderColor ++ " is not a valid borderColor")

/-- Modelled from the spec: the external `table` library, abstracted to rows
joined by column separators (the configured border glyphs are abstracted). -/
def tableRender (rows : List (List String)) : String :=
  String.intercalate "\n" (rows.map (fun r => "║" ++ String.intercalate "│" r ++ "║")) ++ "\n"

/-- `WeatherTemplates.formatTemp`: the temperature string; the `chalk`
red/blue/cyan/yellow coloring uses fixed valid styles and is abstracted. -/
def formatTemp (temp : ℚ) : String :=
  if temp > 30 then toString temp ++ "°C"
  else if temp < 0 then toString temp ++ "°C"
  else if temp < 10 then toString temp ++ "°C"
  else toString temp ++ "°C"

/-- `WeatherTemplates.formatTempLarge`, same fixed valid styles. -/
def formatTempLarge (temp : ℚ) : String := formatTemp temp

/-- `WeatherTemplates.getWeatherIcon`. -/
def getWeatherIcon (iconCode : String) : String :=
  match ([("01d", "☀️"), ("01n", "🌙"), ("02d", "⛅"), ("02n", "☁️"),
          ("03d", "☁️"), ("03n", "☁️"), ("04d", "☁️"), ("04n", "☁️"),
          ("09d", "🌧️"), ("09n", "🌧️"), ("10d", "🌦️"), ("10n", "🌧️"),
          ("11d", "⛈️"), ("11n", "⛈️"), ("13d", "🌨️"), ("13n", "🌨️"),
          ("50d", "🌫️"), ("50n", "🌫️")].find? (fun e => e.1 == iconCode)) with
  | some e => e.2
  | none => "🌤️"

/-- One entry of the `getWeatherASCII` art map. -/
structure WeatherArt where
  art : String
  title : String
  caption : String

/-- `WeatherTemplates.getWeatherASCII` (quote glyphs of the art replaced by
acute accents). -/
def getWeatherASCII (iconCode : String) : WeatherArt :=
  if iconCode == "01d" then
    ⟨"    \\   /    \n     .--.     \n  .-´      ´. \n .´  SUNNY   ´.\n ´___.       _.´\n     ´--´     ",
     "☀️ SUNNY WEATHER", "Soare strălucitor în București!"⟩
  else if iconCode == "02d" then
    ⟨"   \\  /  \n _ /\"\".-.   \n   \\_(   ). \n   /´(_)(´.)\n          ´-´\n     CLOUDS    ",
     "⛅ PARTLY CLOUDY", "Parțial înnorat cu soare"⟩
  else if iconCode == "09d" then
    ⟨"     .--.    \n  .-(    ).  \n (___.__)__) \n  ´ ´ ´ ´ ´  \n ´ ´ ´ ´ ´ ´ \n     RAIN     ",
     "🌧️ RAINY WEATHER", "Ploaie în București"⟩
  else
    ⟨"    .---.    \n   (     )   \n  (___.__)  \n    CLOUDY   ",
     "☁️ CLOUDY WEATHER", "Vremea înnorat"⟩

/-- `WeatherTemplates.generateMatrix`, with the `Math.random()` draws made
explicit: `rand i j = some c` when the source puts character `c` (from the
alphabet `01`) at row `i`, column `j`, and `none` for a space. -/
def generateMatrix (rand : ℕ → ℕ → Option Char) : String :=
  String.join ((List.range 5).map (fun i =>
    String.mk ((List.range 20).map (fun j => (rand i j).getD ' ')) ++ "\n"))

/-- `WeatherTemplates.createTempGauge`: linear map of `[-20, 50]` onto a
20-cell bar, clamped to `[0, 100]` percent. -/
def createTempGauge (temp : ℚ) : Except String String := do
  let percentage := max 0 (min 100 ((temp - (-20)) / (50 - (-20)) * 100))
  let filled : ℤ := Rat.floor (percentage / 5)
  let f ← jsRepeat "█" filled
  let e ← jsRepeat "░" (20 - filled)
  return "[" ++ f ++ e ++ "] " ++ toString temp ++ "°C"

/-- `WeatherTemplates.createWindGauge`: `[0, 30]` m/s onto the bar. -/
def createWindGauge (windSpeed : ℚ) : Except String String := do
  let percentage := max 0 (min 100 (windSpeed / 30 * 100))
  let filled : ℤ := Rat.floor (percentage / 5)
  let f ← jsRepeat "█" filled
  let e ← jsRepeat "░" (20 - filled)
  return "[" ++ f ++ e ++ "] " ++ toString windSpeed ++ "m/s"

/-- `WeatherTemplates.createHumidityGauge`: unclamped, so a humidity above
100 makes `'░'.repeat(20 - filled)` throw `RangeError`. -/
def createHumidityGauge (humidity : ℚ) : Except String String := do
  let filled : ℤ := Rat.floor (humidity / 5)
  let f ← jsRepeat "█" filled
  let e ← jsRepeat "░" (20 - filled)
  return "[" ++ f ++ e ++ "] " ++ toString humidity ++ "%"

/-- TEMPLATE 1, `renderClassicProfessional`; `nowStr` stands for the
`new Date().toLocaleString('ro-RO')` timestamp. -/
def renderClassicProfessional (th : Theme) (w : WeatherData) (ins : Insights)
    (nowStr : String) : Except String String := do
  let primaryColor := getColor th "primary"
  let secondaryColor := getColor th "secondary"
  let accentColor := getColor th "accent"
  let l1 ← chalkApply primaryColor (figletText "VREMEA")
  let l2 ← chalkApply secondaryColor "🌤️ Bucharest Weather Intelligence System"
  let l3 ← chalkApply "gray" ("Actualizat: " ++ nowStr)
  let l4 ← chalkApply accentColor "━━━ CONDIȚII METEOROLOGICE ACTUALE ━━━"
  let l5 ← chalkApply accentColor "━━━ RECOMANDĂRI INTELIGENTE ━━━"
  let content := [l1, l2, l3, "", l4, "",
    "🌡️  Temperatură: " ++ formatTemp w.temp ++ " (simte ca " ++ toString w.feels_like ++ "°C)",
    "☁️  Condiții: " ++ w.description ++ " " ++ getWeatherIcon w.icon,
    "💨  Vânt: " ++ toString w.wind_speed ++ " m/s " ++ w.wind_direction,
    "💧  Umiditate: " ++ toString w.humidity ++ "% | Presiune: " ++ toString w.pressure ++ " hPa",
    "👁️  Vizibilitate: " ++ toString w.visibility ++ " km | Nori: " ++ toString w.cloudiness ++ "%",
    "🌅  Răsărit: " ++ w.sunrise ++ " | 🌇  Apus: " ++ w.sunset,
    "", l5, "",
    "👔  Îmbrăcăminte: " ++ ins.clothing,
    "🎯  Activități: " ++ ins.activities,
    "📍  Locații: " ++ ins.locations,
    "💚  Sănătate: " ++ ins.health]
  boxenWrap "🏛️ PROFESSIONAL WEATHER REPORT" primaryColor (String.intercalate "\n" content)

/-- TEMPLATE 2, `renderModernCard`; the three boxed cards are merged
line-by-line as in the source loop. -/
def renderModernCard (th : Theme) (w : WeatherData) (ins : Insights) :
    Except String String := do
  let m1 ← chalkApply th.primary "🌤️ VREMEA ACUM"
  let m2 ← chalkApply th.secondary w.description
  let m3 ← chalkApply "gray" ("Simte ca " ++ toString w.feels_like ++ "°C")
  let card0 ← boxenWrap "" th.primary
    (String.intercalate "\n" [m1, "", formatTempLarge w.temp, m2, "", m3])
  let d1 ← chalkApply th.secondary "📊 DETALII"
  let card1 ← boxenWrap "" th.secondary (String.intercalate "\n" [d1, "",
    "💨 " ++ toString w.wind_speed ++ " m/s",
    "💧 " ++ toString w.humidity ++ "%",
    "📊 " ++ toString w.pressure ++ " hPa",
    "👁️ " ++ toString w.visibility ++ " km",
    "☁️ " ++ toString w.cloudiness ++ "%"])
  let a1 ← chalkApply th.accent "🤖 AI TIPS"
  let a2 ← chalkApply th.success "✓ Condiții optime"
  let card2 ← boxenWrap "" th.accent (String.intercalate "\n" [a1, "",
    "👕 " ++ ins.clothing.take 20 ++ "...",
    "🎯 " ++ ins.activities.take 20 ++ "...",
    "📍 " ++ ins.locations.take 20 ++ "...", "", a2])
  let lines0 := card0.splitOn "\n"
  let lines1 := card1.splitOn "\n"
  let lines2 := card2.splitOn "\n"
  let merged := (List.range lines0.length).map (fun i =>
    lines0.getD i ""
    ++ (match lines1.get? i with | some s => "  " ++ s | none => "")
    ++ (match lines2.get? i with | some s => "  " ++ s | none => ""))
  return String.intercalate "\n" merged

/-- TEMPLATE 3, `renderTerminalDashboard`. -/
def renderTerminalDashboard (th : Theme) (w : WeatherData)
    (forecast : Option (List ForecastDay)) (ins : Insights) (nowStr : String) :
    Except String String := do
  let h1 ← chalkApply th.primary "▓▓▓ BUCHAREST WEATHER DASHBOARD ▓▓▓"
  let h2 ← chalkApply "gray" (nowStr ++ " | System Online")
  let currentRow :=
    ["[CURRENT] " ++ formatTempLarge w.temp ++ " " ++ w.description,
     "[WIND] " ++ toString w.wind_speed ++ "m/s "
       ++ (if w.wind_direction == "" then "N/A" else w.wind_direction),
     "[HUMIDITY] " ++ toString w.humidity ++ "%",
     "[PRESSURE] " ++ toString w.pressure ++ "hPa"]
  let h3 ← chalkApply th.accent (String.intercalate " | " currentRow)
  let h4 ← chalkApply "gray" (repeatStr "─" 80)
  let top := [h1, h2, "", h3, h4, ""]
  let withForecast ←
    match forecast with
    | none => pure top
    | some fc => do
      let f1 ← chalkApply th.secondary "[FORECAST - 5 DAYS]"
      let rows := [["DAY", "MIN", "MAX", "DESC", "WIND", "HUMIDITY"]]
        ++ (fc.take 5).enum.map (fun p =>
          [(if p.1 == 0 then "TODAY" else if p.1 == 1 then "TOMRW" else p.2.dayName.take 5),
           toString p.2.temp_min ++ "°C",
           toString p.2.temp_max ++ "°C",
           p.2.description.take 10,
           (if p.2.wind_speed_avg == 0 then "N/A" else toString p.2.wind_speed_avg) ++ "m/s",
           (if p.2.humidity_avg == 0 then "N/A" else toString p.2.humidity_avg) ++ "%"])
      pure (top ++ [f1, tableRender rows])
  let t1 ← chalkApply th.primary "[AI-INSIGHTS] STATUS: ACTIVE"
  let t2 ← chalkApply th.success (">>> " ++ ins.clothing)
  let t3 ← chalkApply th.success (">>> " ++ ins.activities)
  let t4 ← chalkApply th.success (">>> " ++ ins.health)
  return String.intercalate "\n" (withForecast ++ ["", t1, t2, t3, t4])

/-- TEMPLATE 4, `renderMinimalist`: only fixed white/gray styles. -/
def renderMinimalist (w : WeatherData) (ins : Insights) : Except String String := do
  let l1 ← chalkApply "white" ("bucuresti " ++ toString w.temp ++ "°c")
  let l2 ← chalkApply "gray" w.description
  let l3 ← chalkApply "gray" ("feels like " ++ toString w.feels_like ++ "°c")
  let l4 ← chalkApply "gray"
    (toString w.humidity ++ "% humidity, " ++ toString w.wind_speed ++ "m/s wind")
  let l5 ← chalkApply "white" ins.clothing.toLower
  return String.intercalate "\n" ["", l1, l2, "", l3, l4, "", l5, ""]

/-- TEMPLATE 5, `renderASCIIArt`. -/
def renderASCIIArt (th : Theme) (w : WeatherData) (ins : Insights) :
    Except String String := do
  let art := getWeatherASCII w.icon
  let a1 ← chalkApply th.primary art.art
  let a2 ← chalkApply th.accent (toString w.temp ++ "°C în BUCUREȘTI")
  let a3 ← chalkApply th.secondary w.description
  let a4 ← chalkApply "gray" (repeatStr "─" 50)
  let a5 ← chalkApply th.primary "🤖 AI RECOMANDĂ:"
  let a6 ← chalkApply th.success ("• " ++ ins.clothing)
  let a7 ← chalkApply th.success ("• " ++ ins.activities)
  let a8 ← chalkApply th.success ("• " ++ ins.health)
  boxenWrap art.title th.primary
    (String.intercalate "\n" [a1, "", a2, a3, "", art.caption, "", a4, "", a5, a6, a7, a8])

/-- TEMPLATE 6, `renderRetroTerminal`: only fixed green/yellow/white/cyan
styles. -/
def renderRetroTerminal (w : WeatherData) (ins : Insights) : Except String String := do
  let g1 ← chalkApply "green" "> SYSTEM BOOT COMPLETE"
  let g2 ← chalkApply "green" "> INITIALIZING WEATHER MODULE..."
  let g3 ← chalkApply "green" "> CONNECTING TO BUCHAREST SENSORS..."
  let g4 ← chalkApply "green" "> [OK] CONNECTION ESTABLISHED"
  let bar ← chalkApply "yellow" "║"
  let top ← chalkApply "yellow" "╔═══════════════════════════════════════╗"
  let mid ← chalkApply "yellow" "╠═══════════════════════════════════════╣"
  let bottom ← chalkApply "yellow" "╚═══════════════════════════════════════╝"
  let title ← chalkApply "white" " WEATHER TERMINAL v3.0               "
  let c1 ← chalkApply "cyan" (" TEMP: " ++ toString w.temp ++ "°C                     ")
  let c2 ← chalkApply "cyan" (" DESC: " ++ padEnd w.description 27 ++ " ")
  let c3 ← chalkApply "cyan" (" WIND: " ++ toString w.wind_speed ++ "m/s                   ")
  let c4 ← chalkApply "cyan" (" HUMI: " ++ toString w.humidity ++ "%                       ")
  let ai1 ← chalkApply "green" " AI-ASSIST: ACTIVE                   "
  let ai2 ← chalkApply "green" (padEnd (" > " ++ ins.clothing.take 30) 39)
  let g5 ← chalkApply "green" "> READY FOR COMMANDS"
  return String.intercalate "\n"
    [g1, g2, g3, g4, "", top, bar ++ title ++ bar, mid,
     bar ++ c1 ++ bar, bar ++ c2 ++ bar, bar ++ c3 ++ bar, bar ++ c4 ++ bar,
     mid, bar ++ ai1 ++ bar, bar ++ ai2 ++ bar, bottom, "", g5]

/-- `WeatherTemplates.generateBucharestMap`: the temperature color is always
one of the fixed valid red/yellow/blue styles. -/
def generateBucharestMap (w : WeatherData) : Except String String := do
  let tempColor := if w.temp > 25 then "red" else if w.temp > 15 then "yellow" else "blue"
  let t ← chalkApply tempColor (toString w.temp ++ "°C")
  return String.intercalate "\n"
    ["     ┌─────────────────┐",
     "     │ SECTORUL 1      │",
     "     │   🏛️  🌡️" ++ t ++ "   │",
     "     └─────┬───────────┘",
     "           │",
     "     ┌─────┴───────────┐",
     "     │ CENTRUL VECHI   │",
     "     │   🏰  " ++ getWeatherIcon w.icon ++ "      │",
     "     └─────┬───────────┘",
     "           │",
     "     ┌─────┴───────────┐",
     "     │ SECTORUL 3-4    │",
     "     │   🏢  💨" ++ toString w.wind_speed ++ "m/s │",
     "     └─────────────────┘"]

/-- TEMPLATE 7, `renderWeatherMap`. -/
def renderWeatherMap (th : Theme) (w : WeatherData) (ins : Insights) :
    Except String String := do
  let map ← generateBucharestMap w
  let m1 ← chalkApply th.primary "🗺️ WEATHER MAP - BUCUREȘTI"
  let m2 ← chalkApply th.secondary ("Temperatură: " ++ toString w.temp ++ "°C | " ++ w.description)
  let m3 ← chalkApply th.secondary
    ("Vânt: " ++ toString w.wind_speed ++ "m/s | Umiditate: " ++ toString w.humidity ++ "%")
  let m4 ← chalkApply th.accent "📍 ZONE RECOMANDATE:"
  let m5 ← chalkApply th.success ("• " ++ ins.locations)
  let m6 ← chalkApply th.success ("• " ++ ins.activities)
  boxenWrap "🌍 WEATHER GEOGRAPHY" th.primary
    (String.intercalate "\n" [m1, "", map, "", m2, m3, "", m4, m5, m6])

/-- TEMPLATE 8, `renderMobileCards` (the insights argument is accepted but,
in the source, the AI card shows only fixed labels). -/
def renderMobileCards (th : Theme) (w : WeatherData) (_ins : Insights) :
    Except String String := do
  let tb ← chalkApply th.primary "┌─────────────────┐"
  let te ← chalkApply th.primary "└─────────────────┘"
  let ts ← chalkApply th.primary "│"
  let t1 ← chalkApply th.accent ("    " ++ toString w.temp ++ "°C        ")
  let t2 ← chalkApply th.secondary ("  " ++ padEnd w.description 15)
  let t3 ← chalkApply "gray" ("  Simte ca " ++ toString w.feels_like ++ "°C   ")
  let tempCard := [tb, ts ++ t1 ++ ts, ts ++ t2 ++ ts, ts ++ t3 ++ ts, te]
  let db ← chalkApply th.secondary "┌─────────────────┐"
  let de ← chalkApply th.secondary "└─────────────────┘"
  let ds ← chalkApply th.secondary "│"
  let d1 ← chalkApply "white" ("  💨 " ++ toString w.wind_speed ++ "m/s       ")
  let d2 ← chalkApply "white" ("  💧 " ++ toString w.humidity ++ "%           ")
  let d3 ← chalkApply "white" ("  📊 " ++ toString w.pressure ++ "hPa   ")
  let detailsCard := [db, ds ++ d1 ++ ds, ds ++ d2 ++ ds, ds ++ d3 ++ ds, de]
  let ab ← chalkApply th.accent "┌─────────────────┐"
  let ae ← chalkApply th.accent "└─────────────────┘"
  let asep ← chalkApply th.accent "│"
  let x1 ← chalkApply "white" "  🤖 AI TIPS      "
  let x2 ← chalkApply th.success "  👕 Îmbrăcăminte   "
  let x3 ← chalkApply th.success "  🎯 Activități     "
  let aiCard := [ab, asep ++ x1 ++ asep, asep ++ x2 ++ asep, asep ++ x3 ++ asep, ae]
  return String.intercalate "\n\n"
    [String.intercalate "\n" tempCard,
     String.intercalate "\n" detailsCard,
     String.intercalate "\n" aiCard]

/-- TEMPLATE 9, `renderMatrix`: only fixed green/cyan styles. -/
def renderMatrix (w : WeatherData) (ins : Insights) (rand : ℕ → ℕ → Option Char) :
    Except String String := do
  let g1 ← chalkApply "green" "█▓▒░ WEATHER MATRIX PROTOCOL ░▒▓█"
  let g2 ← chalkApply "green" (generateMatrix rand)
  let g3 ← chalkApply "green" "> DECODING WEATHER DATA..."
  let g4 ← chalkApply "green" ("> TEMPERATURE: " ++ toString w.temp ++ "°C")
  let g5 ← chalkApply "green" ("> CONDITIONS: " ++ w.description.toUpper)
  let g6 ← chalkApply "green" ("> WIND_SPEED: " ++ toString w.wind_speed ++ "m/s")
  let g7 ← chalkApply "green" ("> HUMIDITY: " ++ toString w.humidity ++ "%")
  let c1 ← chalkApply "cyan" "> AI_MODULE_STATUS: ONLINE"
  let c2 ← chalkApply "cyan" ("> RECOMMENDATION: " ++ ins.clothing.toUpper)
  let c3 ← chalkApply "cyan" ("> ACTIVITY_SUGGEST: " ++ ins.activities.toUpper)
  let g8 ← chalkApply "green" "> END TRANSMISSION"
  return String.intercalate "\n"
    [g1, "", g2, "", g3, g4, g5, g6, g7, "", c1, c2, c3, "", g8]

/-- TEMPLATE 10, `renderGauge`. -/
def renderGauge (th : Theme) (w : WeatherData) (ins : Insights) :
    Except String String := do
  let tempGauge ← createTempGauge w.temp
  let windGauge ← createWindGauge w.wind_speed
  let humidityGauge ← createHumidityGauge w.humidity
  let g1 ← chalkApply th.primary "📊 WEATHER GAUGES - BUCUREȘTI"
  let g2 ← chalkApply th.secondary ("Condiții: " ++ w.description)
  let g3 ← chalkApply th.secondary ("Presiune: " ++ toString w.pressure ++ " hPa")
  let g4 ← chalkApply th.accent "🎯 RECOMANDĂRI:"
  let g5 ← chalkApply th.success ins.clothing
  let g6 ← chalkApply th.success ins.activities
  boxenWrap "📈 WEATHER ANALYTICS" th.primary (String.intercalate "\n"
    [g1, "",
     "🌡️  TEMPERATURĂ: " ++ tempGauge,
     "💨  VÂNT: " ++ windGauge,
     "💧  UMIDITATE: " ++ humidityGauge,
     "", g2, g3, "", g4, g5, g6])

/-- `WeatherTemplates.renderTemplate`: template dispatch with the `classic`
professional template as the `default` case. -/
def renderTemplate (templateName : String) (th : Theme) (w : WeatherData)
    (forecast : Option (List ForecastDay)) (ins : Insights) (nowStr : String)
    (rand : ℕ → ℕ → Option Char) : Except String String :=
  if templateName == "classic" then renderClassicProfessional th w ins nowStr
  else if templateName == "modern" then renderModernCard th w ins
  else if templateName == "dashboard" then renderTerminalDashboard th w forecast ins nowStr
  else if templateName == "minimal" then renderMinimalist w ins
  else if templateName == "ascii" then renderASCIIArt th w ins
  else if templateName == "retro" then renderRetroTerminal w ins
  else if templateName == "map" then renderWeatherMap th w ins
  else if templateName == "mobile" then renderMobileCards th w ins
  else if templateName == "matrix" then renderMatrix w ins rand
  else if templateName == "gauge" then renderGauge th w ins
  else renderClassicProfessional th w ins nowStr

/-- The template ids of `getAvailableTemplates`, in source order. -/
def templateNames : List String :=
  ["classic", "modern", "dashboard", "minimal", "ascii", "retro", "map",
   "mobile", "matrix", "gauge"]

/-- The mutable state of a `WeatherTemplates` instance. -/
structure TemplatesState where
  currentTheme : String
deriving DecidableEq

/-- The constructor's initial state: `this.currentTheme = 'default'`. -/
def initialTemplatesState : TemplatesState := ⟨"default"⟩

/-- The property names a plain object literal inherits from
`Object.prototype` (Node): reading any of them yields a truthy value (a
function, or the `Object.prototype` object itself for `__proto__`). -/
def objectProtoKeys : List String :=
  ["constructor", "hasOwnProperty", "isPrototypeOf", "propertyIsEnumerable",
   "toLocaleString", "toString", "valueOf", "__proto__", "__defineGetter__",
   "__defineSetter__", "__lookupGetter__", "__lookupSetter__"]

/-- The possible results of the JS property access `this.themes[name]`: an own
theme entry, a truthy member inherited from `Object.prototype`, or
`undefined`. -/
inductive PropValue where
  | own (th : Theme)
  | inherited
  | missing
deriving DecidableEq

/-- JS truthiness of a `this.themes[name]` access result: only `undefined`
(`missing`) is falsy. -/
def PropValue.truthy : PropValue → Bool
  | .missing => false
  | _ => true

/-- The full JS property access `this.themes[name]`: an own key shadows the
prototype chain; otherwise the access finds the inherited `Object.prototype`
member, or `undefined`. -/
def themesAccess (name : String) : PropValue :=
  match findTheme name with
  | some th => .own th
  | none => if name ∈ objectProtoKeys then .inherited else .missing

/-- `WeatherTemplates.setTheme`: the source's `if (this.themes[theme])`
truthiness test — switch and report `true` whenever the property access yields
a truthy value (an own theme or an inherited `Object.prototype` member),
otherwise report `false` and keep the state. -/
def setTheme (theme : String) (s : TemplatesState) : Bool × TemplatesState :=
  if (themesAccess theme).truthy then (true, { currentTheme := theme })
  else (false, s)

/-- A fixed randomness source for concrete render evaluations. -/
def noRand : ℕ → ℕ → Option Char := fun _ _ => none

/-- A concrete well-formed insights bundle for concrete render evaluations. -/
def mockInsights : Insights :=
  { clothing := "👕 Cămașă, blugi",
    activities := "🎯 Activitate recomandată: 🚴 Cycling",
    health := "✅ Condiții normale pentru sănătate",
    alerts := [normalAlert],
    locations := "📍 Locuri recomandate: 🌳 Parcul Herăstrău" }

/-- A concrete well-formed forecast day for concrete render evaluations. -/
def mockDay : ForecastDay :=
  { date := "01 Jan 2026", dayName := "Thursday", temp_min := 18, temp_max := 25,
    temp_avg := 22, feels_like_avg := 21, description := "însorit",
    humidity_avg := 55, wind_speed_avg := 4, wind_speed_max := 5,
    precipitation_total := 0 }

/-- The theme keys whose palette entries are all real chalk styles (every key
except `sunset` and `rainbow`, whose palettes name the non-existent
`orange`/`rainbow` styles). -/
def chalkSafeThemeKeys : List String :=
  ["default", "dark", "ocean", "forest", "cyberpunk", "minimal"]

/-! ## Spec-side reference definitions

These follow the specification's words (not the source) and are compared with
the source-derived definitions in refinement-style theorems. -/

/-- Spec reading of the clothing bands: the ordered, non-overlapping ranges as
one piecewise map from temperature to category (the band below `-20` and at or
above `35` being the fallback categories of the source's final line). -/
def specCategory (t : ℚ) : String :=
  if t < 0 then "freezing"
  else if t < 10 then "cold"
  else if t < 15 then "cool"
  else if t < 20 then "mild"
  else if t < 25 then "warm"
  else if t < 35 then "hot"
  else "extreme"

/-- Spec reading of the base advice string selected by the bands. -/
def specBaseAdvice (t : ℚ) : String :=
  if t < 0 then "🧥 Echipament de iarnă complet"
  else if t < 10 then "🧥 Haină groasă, căciulă, mănuși"
  else if t < 15 then "🧥 Jachetă, pulover"
  else if t < 20 then "👔 Jachetă ușoară, bluză"
  else if t < 25 then "👕 Cămașă, blugi"
  else if t < 35 then "👕 Îmbrăcăminte ușoară, tricou"
  else "🩳 Minim de îmbrăcăminte"

/-! ## Helper lemmas -/

theorem jsRound_eq_floor (q : ℚ) : jsRound q = ⌊q + 1 / 2⌋ := by
  rw [jsRound, Rat.floor_def', ← Rat.floor_def]

theorem jsRound_mono {a b : ℚ} (h : a ≤ b) : jsRound a ≤ jsRound b := by
  rw [jsRound_eq_floor, jsRound_eq_floor]
  exact Int.floor_le_floor (by linarith)

theorem expSchedule_succ (rc k : ℕ) :
    (List.range (k + 1)).map (fun i => 2 ^ (rc + i + 1))
      = 2 ^ (rc + 1) :: (List.range k).map (fun i => 2 ^ (rc + 1 + i + 1)) := by
  rw [List.range_succ_eq_map, List.map_cons, List.map_map]
  refine congrArg₂ _ (by norm_num) ?_
  refine List.map_congr_left (fun i _ => ?_)
  simp only [Function.comp]
  congr 1
  omega

theorem retryLoop_failN_ok (n : ℕ) :
    ∀ (k rem a rc : ℕ), a + k = n → k ≤ rem →
      retryLoop (failNThenOk n) rem a rc =
        (Except.ok (), (List.range k).map (fun i => 2 ^ (rc + i + 1))) := by
  intro k
  induction k with
  | zero =>
    intro rem a rc h _
    have ha : failNThenOk n a = Except.ok () := by
      unfold failNThenOk
      rw [if_neg (by omega)]
    cases rem with
    | zero => rw [List.range_zero, List.map_nil]; unfold retryLoop; rw [ha]
    | succ m => rw [List.range_zero, List.map_nil]; unfold retryLoop; rw [ha]
  | succ k ih =>
    intro rem a rc h hk
    have ha : failNThenOk n a = Except.error (JsErr.http 500) := by
      unfold failNThenOk
      rw [if_pos (by omega)]
    obtain ⟨rem', rfl⟩ : ∃ r, rem = r + 1 := ⟨rem - 1, by omega⟩
    have step := ih rem' (a + 1) (rc + 1) (by omega) (by omega)
    unfold retryLoop
    rw [ha, expSchedule_succ, step]
    rfl

theorem retryLoop_failN_err (n : ℕ) :
    ∀ (rem a rc : ℕ), a + rem < n →
      retryLoop (failNThenOk n) rem a rc =
        (Except.error (JsErr.http 500), (List.range rem).map (fun i => 2 ^ (rc + i + 1))) := by
  intro rem
  induction rem with
  | zero =>
    intro a rc h
    have ha : failNThenOk n a = Except.error (JsErr.http 500) := by
      unfold failNThenOk
      rw [if_pos (by omega)]
    rw [List.range_zero, List.map_nil]
    unfold retryLoop
    rw [ha]
  | succ rem ih =>
    intro a rc h
    have ha : failNThenOk n a = Except.error (JsErr.http 500) := by
      unfold failNThenOk
      rw [if_pos (by omega)]
    have step := ih (a + 1) (rc + 1) (by omega)
    unfold retryLoop
    rw [ha, expSchedule_succ, step]
    rfl

/-! ## Claims -/

/-- C1: for the TTL cache used by the weather client, `set(k, p)` followed
immediately by `get(k)` returns `p`; once the TTL has elapsed since the write
`get(k)` reports absent; and `get` never returns a payload whose age is at
least the TTL. -/
theorem c1_ttl_cache {α : Type} (c : TtlCache α) (k : String) (p : α) (t : ℕ) :
    (0 < c.ttl → (c.set k p t).get k t = some p)
    ∧ (∀ u : ℕ, c.ttl ≤ u - t → (c.set k p t).get k u = none)
    ∧ (∀ (d : TtlCache α) (q : String) (u : ℕ) (x : α),
        d.get q u = some x → ∃ w, d.entries q = some (x, w) ∧ u - w < d.ttl) := by
  refine ⟨fun h => ?_, fun u hu => ?_, fun d q u x h => ?_⟩
  · simp [TtlCache.get, TtlCache.set, h]
  · simp [TtlCache.get, TtlCache.set]
    omega
  · unfold TtlCache.get at h
    split at h
    next y w he =>
      split at h
      next hw => exact ⟨w, by rw [he, Option.some.inj h], hw⟩
      next => exact absurd h (by simp)
    next => exact absurd h (by simp)

/-- C1 witness: a fresh write is readable immediately and is absent 300 s
later. -/
theorem c1_ttl_cache_witness :
    ((freshCache ℕ).set "current_Bucharest_RO" 7 100).get "current_Bucharest_RO" 100 = some 7
    ∧ ((freshCache ℕ).set "current_Bucharest_RO" 7 100).get "current_Bucharest_RO" 400 = none :=
  ⟨(c1_ttl_cache (freshCache ℕ) "current_Bucharest_RO" 7 100).1 (by decide),
   (c1_ttl_cache (freshCache ℕ) "current_Bucharest_RO" 7 100).2.1 400 (by decide)⟩

/-- C2 counterexample: with the default `retryAttempts = 3`, a transport that
fails with HTTP 500 exactly `N = 3` times and then succeeds still succeeds,
although the claimed `N < retryAttempts` is false — the interceptor allows
`retryAttempts` retries on top of the initial attempt. -/
theorem c2_retry_counterexample :
    (fetchRequest 3 (failNThenOk 3)).1 = Except.ok () ∧ ¬ (3 < 3) :=
  ⟨rfl, by decide⟩

/-- C2 (amended): the fetch succeeds iff `N ≤ retryAttempts`; the delays
follow the exponential schedule `2^1, ..., 2^min(N, retryAttempts)` seconds;
and an HTTP 404 fails immediately with zero retries. -/
theorem c2_resilient_fetch (ra n : ℕ) :
    ((fetchRequest ra (failNThenOk n)).1 = Except.ok () ↔ n ≤ ra)
    ∧ (fetchRequest ra (failNThenOk n)).2
        = (List.range (min n ra)).map (fun i => 2 ^ (i + 1))
    ∧ fetchRequest ra always404 = (Except.error (JsErr.http 404), []) := by
  have h404 : fetchRequest ra always404 = (Except.error (JsErr.http 404), []) := by
    cases ra with
    | zero => rfl
    | succ m => rfl
  rcases le_or_lt n ra with hle | hlt
  · have h := retryLoop_failN_ok n n ra 0 0 (by omega) hle
    rw [fetchRequest, h]
    refine ⟨by simp [hle], ?_, h404⟩
    have : min n ra = n := by omega
    rw [this]
    simp
  · have h := retryLoop_failN_err n ra 0 0 (by omega)
    rw [fetchRequest, h]
    refine ⟨by simp; omega, ?_, h404⟩
    have : min n ra = ra := by omega
    rw [this]
    simp

/-- C4 counterexample: at exactly `temp = 30` (with the spec's other fields)
the produced list is the single success entry — the heat rule requires
`temp > 30` strictly, so no heat alert is included, contrary to the claim. -/
theorem c4_heat_alert_counterexample :
    generateSmartAlerts { temp := 30, humidity := 60, wind_speed := 5, pressure := 1013 }
        none none = [normalAlert]
    ∧ Alert.mk "warning" "☀️ ATENȚIE: Temperaturi ridicate!"
        ∉ generateSmartAlerts { temp := 30, humidity := 60, wind_speed := 5, pressure := 1013 }
            none none := by
  refine ⟨by decide, by decide⟩

/-- C4 (amended): the alert generator includes the sub-zero alert at `-5` and
the heat alert for temperatures strictly above 30 (e.g. `31`, while exactly
`30` yields only the success entry); at `20` it yields exactly the success
entry; the result is never empty, and whenever no threshold rule fires it is
exactly the single success-level entry. -/
theorem c4_smart_alerts (w : WeatherData) (aq : Option ℕ) (uv : Option ℚ) :
    Alert.mk "warning" "❄️ ATENȚIE: Temperaturi sub zero!"
      ∈ generateSmartAlerts { temp := -5, humidity := 60, wind_speed := 5, pressure := 1013 }
          none none
    ∧ Alert.mk "warning" "☀️ ATENȚIE: Temperaturi ridicate!"
      ∈ generateSmartAlerts { temp := 31, humidity := 60, wind_speed := 5, pressure := 1013 }
          none none
    ∧ generateSmartAlerts { temp := 20, humidity := 60, wind_speed := 5, pressure := 1013 }
        none none = [normalAlert]
    ∧ generateSmartAlerts w aq uv ≠ []
    ∧ (rawSmartAlerts w aq uv = [] → generateSmartAlerts w aq uv = [normalAlert]) := by
  refine ⟨by decide, by decide, by decide, ?_, fun h => ?_⟩
  · simp only [generateSmartAlerts]
    by_cases hl : 0 < (rawSmartAlerts w aq uv).length
    · rw [if_pos hl]
      exact List.length_pos.mp hl
    · rw [if_neg hl]
      simp
  · simp only [generateSmartAlerts, h]
    rfl

/-- C4 witness: the amended theorem applied at the `temp = 20` input with no
rule firing. -/
theorem c4_smart_alerts_witness :
    generateSmartAlerts { temp := 20, humidity := 60, wind_speed := 5, pressure := 1013 }
        none none ≠ []
    ∧ generateSmartAlerts { temp := 20, humidity := 60, wind_speed := 5, pressure := 1013 }
        none none = [normalAlert] :=
  ⟨(c4_smart_alerts { temp := 20, humidity := 60, wind_speed := 5, pressure := 1013 }
      none none).2.2.2.1,
   (c4_smart_alerts { temp := 20, humidity := 60, wind_speed := 5, pressure := 1013 }
      none none).2.2.2.2 (by decide)⟩

theorem find_fst_isSome (t : String) (l : List (String × Theme)) :
    (l.find? (fun e => e.1 == t)).isSome ↔ t ∈ l.map (fun e => e.1) := by
  induction l with
  | nil => simp
  | cons a l ih =>
    by_cases h : a.1 = t
    · simp [List.find?_cons, h]
    · have hb : (a.1 == t) = false := beq_eq_false_iff_ne.mpr h
      simp [List.find?_cons, hb, ih, Ne.symm h]

theorem findTheme_isSome_iff (t : String) : (findTheme t).isSome ↔ t ∈ themeKeys := by
  unfold findTheme
  rw [Option.isSome_map']
  rw [find_fst_isSome]
  have h : themesTable.map (fun e => e.1) = themeKeys := rfl
  rw [h]

/-- C10 counterexample: `setTheme('constructor')` returns `true` and installs
`'constructor'` — not one of the eight theme keys — as the current theme: the
source's `if (this.themes[theme])` is a prototype-chain property access, and
`Object.prototype.constructor` is truthy.  This falsifies the claimed
biconditional, the unknown-name clause, and the validity invariant. -/
theorem c10_prototype_counterexample :
    (setTheme "constructor" initialTemplatesState).1 = true
    ∧ (setTheme "constructor" initialTemplatesState).2.currentTheme = "constructor"
    ∧ "constructor" ∉ themeKeys :=
  ⟨rfl, rfl, by decide⟩

/-- C10 (amended): `setTheme(t)` returns `true` and switches the current theme
iff `this.themes[t]` is truthy, i.e. iff `t` is one of the eight theme keys or
a property name inherited from `Object.prototype`; for every other name it
returns `false` and leaves the state unchanged.  The invariant actually
maintained is the weaker one: the current theme is always a theme key or an
inherited property name (established by the constructor's `'default'`). -/
theorem c10_set_theme (t : String) (s : TemplatesState) :
    ((setTheme t s).1 = true ↔ t ∈ themeKeys ∨ t ∈ objectProtoKeys)
    ∧ (t ∈ themeKeys ∨ t ∈ objectProtoKeys → (setTheme t s).2.currentTheme = t)
    ∧ (t ∉ themeKeys → t ∉ objectProtoKeys → (setTheme t s).2 = s)
    ∧ (s.currentTheme ∈ themeKeys ∨ s.currentTheme ∈ objectProtoKeys →
        (setTheme t s).2.currentTheme ∈ themeKeys
          ∨ (setTheme t s).2.currentTheme ∈ objectProtoKeys)
    ∧ initialTemplatesState.currentTheme ∈ themeKeys := by
  have hiff := findTheme_isSome_iff t
  rcases hf : findTheme t with _ | th
  · rw [hf] at hiff
    simp only [Option.isSome_none, Bool.false_eq_true, false_iff] at hiff
    by_cases hp : t ∈ objectProtoKeys
    · have ha : themesAccess t = PropValue.inherited := by
        simp [themesAccess, hf, hp]
      have hs : setTheme t s = (true, { currentTheme := t }) := by
        simp [setTheme, ha, PropValue.truthy]
      rw [hs]
      exact ⟨by simp [hp], fun _ => rfl, fun _ hnp => absurd hp hnp,
        fun _ => Or.inr hp, by decide⟩
    · have ha : themesAccess t = PropValue.missing := by
        simp [themesAccess, hf, hp]
      have hs : setTheme t s = (false, s) := by
        simp [setTheme, ha, PropValue.truthy]
      rw [hs]
      refine ⟨by simp [hiff, hp], fun h => ?_, fun _ _ => rfl, fun h => h, by decide⟩
      rcases h with h | h
      · exact absurd h hiff
      · exact absurd h hp
  · have htk : t ∈ themeKeys := hiff.mp (by rw [hf]; rfl)
    have ha : themesAccess t = PropValue.own th := by
      simp [themesAccess, hf]
    have hs : setTheme t s = (true, { currentTheme := t }) := by
      simp [setTheme, ha, PropValue.truthy]
    rw [hs]
    exact ⟨by simp [htk], fun _ => rfl, fun hk _ => absurd htk hk,
      fun _ => Or.inl htk, by decide⟩

set_option maxHeartbeats 1600000 in
theorem tempCategory_eq_spec (t : ℚ) : getTemperatureCategory t = specCategory t := by
  simp only [getTemperatureCategory, clothingMatrix, firstMatchingCategory, specCategory]
  split_ifs <;>
    first
      | rfl
      | (exfalso; linarith)
      | (exfalso
         simp only [not_and_or, not_lt, not_le] at *
         casesm* _ ∧ _, _ ∨ _ <;> linarith)

theorem clothing_advice_shape (w : WeatherData) :
    getEnhancedClothingAdvice w
      = specBaseAdvice w.temp
        ++ (if clothingModifiers w = [] then ""
            else " " ++ String.intercalate ", " (clothingModifiers w)) := by
  unfold getEnhancedClothingAdvice
  rw [tempCategory_eq_spec]
  by_cases hm : clothingModifiers w = []
  · unfold specCategory specBaseAdvice
    split_ifs <;>
      simp [clothingRuleFor, clothingMatrix, List.find?, hm]
  · have hl : 0 < (clothingModifiers w).length := List.length_pos.mpr hm
    unfold specCategory specBaseAdvice
    split_ifs <;>
      simp [clothingRuleFor, clothingMatrix, List.find?, hm, hl] <;>
        rw [← String.append_assoc] <;> rfl

theorem clothing_modifier_iffs (w : WeatherData) :
    ("+ protecție vânt" ∈ clothingModifiers w ↔ w.wind_speed > 15)
    ∧ ("+ impermeabil" ∈ clothingModifiers w ↔ w.rain_1h > 0 ∨ w.rain_3h > 0)
    ∧ ("+ materiale respirante" ∈ clothingModifiers w ↔ w.humidity > 80)
    ∧ ("+ ghete antiderapante" ∈ clothingModifiers w ↔ w.snow_1h > 0 ∨ w.snow_3h > 0) := by
  unfold clothingModifiers
  by_cases h1 : w.wind_speed > 15 <;>
    by_cases h2 : w.rain_1h > 0 ∨ w.rain_3h > 0 <;>
      by_cases h3 : w.humidity > 80 <;>
        by_cases h4 : w.snow_1h > 0 ∨ w.snow_3h > 0 <;>
          simp [h1, h2, h3, h4]

/-- C7: the clothing advice is the first matching band of the ordered
temperature table (equal to the piecewise band map), with modifier clauses
appended exactly when wind exceeds 15, precipitation is present, humidity
exceeds 80, or snow is present; at `30` it is the light-clothing advice and at
`-5` the complete winter outfit. -/
theorem c7_clothing_advice :
    (∀ t : ℚ, getTemperatureCategory t = specCategory t)
    ∧ (∀ w : WeatherData, getEnhancedClothingAdvice w
        = specBaseAdvice w.temp
          ++ (if clothingModifiers w = [] then ""
              else " " ++ String.intercalate ", " (clothingModifiers w)))
    ∧ (∀ w : WeatherData,
        ("+ protecție vânt" ∈ clothingModifiers w ↔ w.wind_speed > 15)
        ∧ ("+ impermeabil" ∈ clothingModifiers w ↔ w.rain_1h > 0 ∨ w.rain_3h > 0)
        ∧ ("+ materiale respirante" ∈ clothingModifiers w ↔ w.humidity > 80)
        ∧ ("+ ghete antiderapante" ∈ clothingModifiers w ↔ w.snow_1h > 0 ∨ w.snow_3h > 0))
    ∧ getEnhancedClothingAdvice { temp := 30 } = "👕 Îmbrăcăminte ușoară, tricou"
    ∧ getEnhancedClothingAdvice { temp := -5 } = "🧥 Echipament de iarnă complet" :=
  ⟨tempCategory_eq_spec, clothing_advice_shape, clothing_modifier_iffs, by decide, by decide⟩

theorem sunnyActivities_ne_nil {tc : String} {l : List String}
    (h : sunnyActivities tc = some l) : l ≠ [] := by
  unfold sunnyActivities at h
  split_ifs at h <;>
    (simp only [Option.some.injEq] at h; subst h; simp)

theorem cloudyActivities_ne_nil {tc : String} {l : List String}
    (h : cloudyActivities tc = some l) : l ≠ [] := by
  unfold cloudyActivities at h
  split_ifs at h <;>
    (simp only [Option.some.injEq] at h; subst h; simp)

theorem activityPool_ne_nil (wt tc : String) : activityPool wt tc ≠ [] := by
  unfold activityPool
  split_ifs
  · rcases hs : sunnyActivities tc with _ | l
    · simp [rainyActivities]
    · exact sunnyActivities_ne_nil hs
  · rcases hc : cloudyActivities tc with _ | l
    · simp [rainyActivities]
    · exact cloudyActivities_ne_nil hc
  · simp [rainyActivities]

theorem activityCandidates_ne_nil (w : WeatherData) (aq : Option ℕ) :
    activityCandidates w aq ≠ [] := by
  unfold activityCandidates
  cases aq with
  | none => exact activityPool_ne_nil _ _
  | some a =>
    by_cases h : 4 ≤ a
    · simp [h, rainyActivities]
    · simp only [if_neg h]
      exact activityPool_ne_nil _ _

theorem floorIdx_lt {r : ℚ} {n : ℕ} (h0 : 0 ≤ r) (h1 : r < 1) (hn : 0 < n) :
    (Rat.floor (r * n)).toNat < n := by
  have hfl : Rat.floor (r * (n : ℚ)) = ⌊(r * (n : ℚ))⌋ := by
    rw [Rat.floor_def', ← Rat.floor_def]
  have hn' : (0 : ℚ) < (n : ℚ) := by exact_mod_cast hn
  have hlt : ⌊(r * (n : ℚ))⌋ < (n : ℤ) := by
    apply Int.floor_lt.mpr
    push_cast
    nlinarith
  have hge : (0 : ℤ) ≤ ⌊(r * (n : ℚ))⌋ := Int.floor_nonneg.mpr (by positivity)
  rw [hfl]
  omega

theorem getContextualActivities_mem (w : WeatherData) (aq : Option ℕ) {r : ℚ}
    (h0 : 0 ≤ r) (h1 : r < 1) :
    ∃ s ∈ activityCandidates w aq,
      getContextualActivities w aq r = "🎯 Activitate recomandată: " ++ s := by
  unfold getContextualActivities
  have hlen : 0 < (activityCandidates w aq).length :=
    List.length_pos.mpr (activityCandidates_ne_nil w aq)
  have hidx := floorIdx_lt h0 h1 hlen
  refine ⟨(activityCandidates w aq).getD
    (Rat.floor (r * (activityCandidates w aq).length)).toNat "", ?_, rfl⟩
  rw [List.getD_eq_getElem?_getD, List.getElem?_eq_getElem hidx]
  simp only [Option.getD_some]
  exact List.getElem_mem hidx

/-- C9: against the explicit-randomness embedding of `generateInsights`, the
alert list and the clothing advice are independent of the injected random
draws (deterministic in the weather inputs), while the activity suggestion is
always drawn from the fixed candidate list determined by the input's weather
category. -/
theorem c9_insight_determinism (w : WeatherData) (aq : Option ℕ) (uv : Option ℚ)
    (r1 r2 l1 l2 : ℚ) :
    (generateInsights w aq uv r1 l1).alerts = (generateInsights w aq uv r2 l2).alerts
    ∧ (generateInsights w aq uv r1 l1).clothing = (generateInsights w aq uv r2 l2).clothing
    ∧ (0 ≤ r1 → r1 < 1 → ∃ s ∈ activityCandidates w aq,
        (generateInsights w aq uv r1 l1).activities = "🎯 Activitate recomandată: " ++ s) :=
  ⟨rfl, rfl, fun h0 h1 => getContextualActivities_mem w aq h0 h1⟩

/-- C9 witness: at the mock record with random draw `1/2`, the activity is one
of the fixed candidates. -/
theorem c9_insight_determinism_witness :
    ∃ s ∈ activityCandidates mockWeather none,
      (generateInsights mockWeather none none (1 / 2) 0).activities
        = "🎯 Activitate recomandată: " ++ s :=
  (c9_insight_determinism mockWeather none none (1 / 2) 0 0 0).2.2
    (by norm_num) (by norm_num)

theorem foldl_min_le_init (xs : List ℚ) : ∀ x : ℚ, xs.foldl min x ≤ x := by
  induction xs with
  | nil => intro x; simp
  | cons y ys ih =>
    intro x
    simp only [List.foldl_cons]
    exact le_trans (ih (min x y)) (min_le_left x y)

theorem foldl_min_mem (xs : List ℚ) : ∀ x : ℚ, xs.foldl min x = x ∨ xs.foldl min x ∈ xs := by
  induction xs with
  | nil => intro x; left; rfl
  | cons y ys ih =>
    intro x
    simp only [List.foldl_cons]
    rcases ih (min x y) with h | h
    · rcases min_choice x y with hm | hm
      · left; rw [h, hm]
      · right; rw [h, hm]; exact List.mem_cons_self y ys
    · right; exact List.mem_cons_of_mem y h

theorem foldl_min_le_mem (xs : List ℚ) : ∀ (x z : ℚ), z ∈ xs → xs.foldl min x ≤ z := by
  induction xs with
  | nil => intro x z hz; cases hz
  | cons y ys ih =>
    intro x z hz
    simp only [List.foldl_cons]
    rcases List.mem_cons.mp hz with rfl | hz
    · exact le_trans (foldl_min_le_init ys (min x z)) (min_le_right x z)
    · exact ih (min x y) z hz

theorem foldl_max_init_le (xs : List ℚ) : ∀ x : ℚ, x ≤ xs.foldl max x := by
  induction xs with
  | nil => intro x; simp
  | cons y ys ih =>
    intro x
    simp only [List.foldl_cons]
    exact le_trans (le_max_left x y) (ih (max x y))

theorem foldl_max_mem (xs : List ℚ) : ∀ x : ℚ, xs.foldl max x = x ∨ xs.foldl max x ∈ xs := by
  induction xs with
  | nil => intro x; left; rfl
  | cons y ys ih =>
    intro x
    simp only [List.foldl_cons]
    rcases ih (max x y) with h | h
    · rcases max_choice x y with hm | hm
      · left; rw [h, hm]
      · right; rw [h, hm]; exact List.mem_cons_self y ys
    · right; exact List.mem_cons_of_mem y h

theorem foldl_max_mem_le (xs : List ℚ) : ∀ (x z : ℚ), z ∈ xs → z ≤ xs.foldl max x := by
  induction xs with
  | nil => intro x z hz; cases hz
  | cons y ys ih =>
    intro x z hz
    simp only [List.foldl_cons]
    rcases List.mem_cons.mp hz with rfl | hz
    · exact le_trans (le_max_right x z) (foldl_max_init_le ys (max x z))
    · exact ih (max x y) z hz

theorem jsMin_mem {l : List ℚ} (h : l ≠ []) : jsMin l ∈ l := by
  cases l with
  | nil => exact absurd rfl h
  | cons x xs =>
    simp only [jsMin]
    rcases foldl_min_mem xs x with h1 | h1
    · rw [h1]; exact List.mem_cons_self x xs
    · exact List.mem_cons_of_mem x h1

theorem jsMin_le {l : List ℚ} {z : ℚ} (hz : z ∈ l) : jsMin l ≤ z := by
  cases l with
  | nil => cases hz
  | cons x xs =>
    simp only [jsMin]
    rcases List.mem_cons.mp hz with rfl | hz
    · exact foldl_min_le_init xs z
    · exact foldl_min_le_mem xs x z hz

theorem jsMax_mem {l : List ℚ} (h : l ≠ []) : jsMax l ∈ l := by
  cases l with
  | nil => exact absurd rfl h
  | cons x xs =>
    simp only [jsMax]
    rcases foldl_max_mem xs x with h1 | h1
    · rw [h1]; exact List.mem_cons_self x xs
    · exact List.mem_cons_of_mem x h1

theorem le_jsMax {l : List ℚ} {z : ℚ} (hz : z ∈ l) : z ≤ jsMax l := by
  cases l with
  | nil => cases hz
  | cons x xs =>
    simp only [jsMax]
    rcases List.mem_cons.mp hz with rfl | hz
    · exact foldl_max_init_le xs z
    · exact foldl_max_mem_le xs x z hz

theorem jsMin_le_mean {l : List ℚ} (h : l ≠ []) : jsMin l ≤ listMean l := by
  have hlen : (0 : ℚ) < l.length := by
    have := List.length_pos.mpr h
    exact_mod_cast this
  rw [listMean, le_div_iff₀ hlen]
  have hs : l.length • jsMin l ≤ l.sum :=
    List.card_nsmul_le_sum l (jsMin l) (fun x hx => jsMin_le hx)
  rw [nsmul_eq_mul] at hs
  linarith

theorem mean_le_jsMax {l : List ℚ} (h : l ≠ []) : listMean l ≤ jsMax l := by
  have hlen : (0 : ℚ) < l.length := by
    have := List.length_pos.mpr h
    exact_mod_cast this
  rw [listMean, div_le_iff₀ hlen]
  have hs : l.sum ≤ l.length • jsMax l :=
    List.sum_le_card_nsmul l (jsMax l) (fun x hx => le_jsMax hx)
  rw [nsmul_eq_mul] at hs
  linarith

/-- C5: the daily aggregate's `temp_min`/`temp_max` are the rounded least and
greatest temperature samples, `temp_avg` is the rounded arithmetic mean; for
the sample day `[18, 22, 25]` this gives `18`, `25` and `22`. -/
theorem c5_forecast_aggregates :
    (∀ d : DayData, d.temps ≠ [] →
      ((processDay d).temp_min = jsRound (jsMin d.temps)
        ∧ jsMin d.temps ∈ d.temps ∧ ∀ x ∈ d.temps, jsMin d.temps ≤ x)
      ∧ ((processDay d).temp_max = jsRound (jsMax d.temps)
        ∧ jsMax d.temps ∈ d.temps ∧ ∀ x ∈ d.temps, x ≤ jsMax d.temps)
      ∧ (processDay d).temp_avg = jsRound (d.temps.sum / d.temps.length))
    ∧ (processDay sampleDay).temp_min = 18
    ∧ (processDay sampleDay).temp_max = 25
    ∧ (processDay sampleDay).temp_avg = 22 := by
  have hmin : jsMin sampleDay.temps = 18 := by
    norm_num [sampleDay, jsMin, List.foldl, min_def]
  have hmax : jsMax sampleDay.temps = 25 := by
    norm_num [sampleDay, jsMax, List.foldl, max_def]
  have hmean : listMean sampleDay.temps = 65 / 3 := by
    norm_num [sampleDay, listMean]
  refine ⟨fun d hd =>
    ⟨⟨rfl, jsMin_mem hd, fun _ hx => jsMin_le hx⟩,
     ⟨rfl, jsMax_mem hd, fun _ hx => le_jsMax hx⟩, rfl⟩, ?_, ?_, ?_⟩
  · show jsRound (jsMin sampleDay.temps) = 18
    rw [hmin, jsRound_eq_floor, Int.floor_eq_iff]
    norm_num
  · show jsRound (jsMax sampleDay.temps) = 25
    rw [hmax, jsRound_eq_floor, Int.floor_eq_iff]
    norm_num
  · show jsRound (listMean sampleDay.temps) = 22
    rw [hmean, jsRound_eq_floor, Int.floor_eq_iff]
    norm_num

/-- C5 witness: the general part applied to the sample day. -/
theorem c5_forecast_aggregates_witness :
    (processDay sampleDay).temp_min = jsRound (jsMin sampleDay.temps)
    ∧ jsMin sampleDay.temps ∈ sampleDay.temps
    ∧ (processDay sampleDay).temp_min = 18 :=
  ⟨(c5_forecast_aggregates.1 sampleDay (by decide)).1.1,
   (c5_forecast_aggregates.1 sampleDay (by decide)).1.2.1,
   c5_forecast_aggregates.2.1⟩

/-- C8: for every day with a non-empty temperature sample list, the aggregate
satisfies `temp_min ≤ temp_avg ≤ temp_max`. -/
theorem c8_min_avg_max (d : DayData) (h : d.temps ≠ []) :
    (processDay d).temp_min ≤ (processDay d).temp_avg
    ∧ (processDay d).temp_avg ≤ (processDay d).temp_max :=
  ⟨jsRound_mono (jsMin_le_mean h), jsRound_mono (mean_le_jsMax h)⟩

/-- C8 witness: the invariant at the sample day. -/
theorem c8_min_avg_max_witness :
    (processDay sampleDay).temp_min ≤ (processDay sampleDay).temp_avg
    ∧ (processDay sampleDay).temp_avg ≤ (processDay sampleDay).temp_max :=
  c8_min_avg_max sampleDay (by decide)

theorem insertKeyed_perm (key : α → ℕ) (x : α) (l : List α) :
    List.Perm (insertKeyed key x l) (x :: l) := by
  induction l with
  | nil => exact List.Perm.refl _
  | cons y ys ih =>
    unfold insertKeyed
    by_cases h : key x ≤ key y
    · rw [if_pos h]
    · rw [if_neg h]
      exact (List.Perm.cons y ih).trans (List.Perm.swap x y ys)

theorem sortKeyed_perm (key : α → ℕ) (l : List α) : List.Perm (sortKeyed key l) l := by
  induction l with
  | nil => exact List.Perm.refl _
  | cons x xs ih =>
    exact (insertKeyed_perm key x (sortKeyed key xs)).trans (List.Perm.cons x ih)

theorem insertKeyed_sorted (key : α → ℕ) (x : α) :
    ∀ l : List α, l.Sorted (fun a b => key a ≤ key b) →
      (insertKeyed key x l).Sorted (fun a b => key a ≤ key b) := by
  intro l
  induction l with
  | nil => intro _; simp [insertKeyed]
  | cons y ys ih =>
    intro hl
    rw [List.sorted_cons] at hl
    unfold insertKeyed
    by_cases h : key x ≤ key y
    · rw [if_pos h, List.sorted_cons]
      refine ⟨fun b hb => ?_, List.sorted_cons.mpr hl⟩
      rcases List.mem_cons.mp hb with rfl | hb
      · exact h
      · exact le_trans h (hl.1 b hb)
    · rw [if_neg h, List.sorted_cons]
      refine ⟨fun b hb => ?_, ih hl.2⟩
      rcases List.mem_cons.mp ((insertKeyed_perm key x ys).mem_iff.mp hb) with rfl | hb2
      · exact Nat.le_of_lt (Nat.lt_of_not_le h)
      · exact hl.1 b hb2

theorem sortKeyed_sorted (key : α → ℕ) (l : List α) :
    (sortKeyed key l).Sorted (fun a b => key a ≤ key b) := by
  induction l with
  | nil => simp [sortKeyed]
  | cons x xs ih => exact insertKeyed_sorted key x (sortKeyed key xs) ih

theorem getLastD_mem : ∀ (l : List α), l ≠ [] → ∀ d : α, l.getLastD d ∈ l := by
  intro l
  induction l with
  | nil => intro h; exact absurd rfl h
  | cons x xs ih =>
    intro _ d
    rw [List.getLastD_cons]
    cases xs with
    | nil => simp [List.getLastD]
    | cons y ys => exact List.mem_cons_of_mem x (ih (by simp) x)

theorem getLastD_irrel : ∀ (l : List α), l ≠ [] → ∀ d1 d2 : α, l.getLastD d1 = l.getLastD d2 := by
  intro l
  cases l with
  | nil => intro h; exact absurd rfl h
  | cons x xs => intro _ d1 d2; rw [List.getLastD_cons, List.getLastD_cons]

theorem sorted_key_le_getLastD (key : α → ℕ) :
    ∀ l : List α, l.Sorted (fun a b => key a ≤ key b) →
      ∀ x ∈ l, ∀ d : α, key x ≤ key (l.getLastD d) := by
  intro l
  induction l with
  | nil => intro _ x hx; cases hx
  | cons y ys ih =>
    intro hl x hx d
    rw [List.sorted_cons] at hl
    rw [List.getLastD_cons]
    cases ys with
    | nil =>
      rcases List.mem_cons.mp hx with rfl | h
      · simp [List.getLastD]
      · cases h
    | cons z zs =>
      rcases List.mem_cons.mp hx with rfl | h
      · exact hl.1 _ (getLastD_mem (z :: zs) (by simp) x)
      · exact ih hl.2 x h y

theorem filter_insertKeyed_pos (key : α → ℕ) (k : ℕ) (x : α) (hx : key x = k) :
    ∀ l : List α, (insertKeyed key x l).filter (fun a => key a == k)
      = x :: l.filter (fun a => key a == k) := by
  intro l
  induction l with
  | nil => simp [insertKeyed, List.filter_cons, hx]
  | cons y ys ih =>
    unfold insertKeyed
    by_cases h : key x ≤ key y
    · rw [if_pos h]
      simp [List.filter_cons, hx]
    · rw [if_neg h]
      have hy : (key y == k) = false := by
        rw [beq_eq_false_iff_ne]
        intro he
        exact h (by omega)
      simp [List.filter_cons, hy, ih]

theorem filter_insertKeyed_neg (key : α → ℕ) (k : ℕ) (x : α) (hx : key x ≠ k) :
    ∀ l : List α, (insertKeyed key x l).filter (fun a => key a == k)
      = l.filter (fun a => key a == k) := by
  intro l
  have hxb : (key x == k) = false := beq_eq_false_iff_ne.mpr hx
  induction l with
  | nil => simp [insertKeyed, List.filter_cons, hxb]
  | cons y ys ih =>
    unfold insertKeyed
    by_cases h : key x ≤ key y
    · rw [if_pos h]
      simp [List.filter_cons, hxb]
    · rw [if_neg h]
      simp [List.filter_cons, ih]

theorem filter_sortKeyed (key : α → ℕ) (k : ℕ) :
    ∀ l : List α, (sortKeyed key l).filter (fun a => key a == k)
      = l.filter (fun a => key a == k) := by
  intro l
  induction l with
  | nil => rfl
  | cons x xs ih =>
    show (insertKeyed key x (sortKeyed key xs)).filter (fun a => key a == k) = _
    by_cases hx : key x = k
    · rw [filter_insertKeyed_pos key k x hx, ih, List.filter_cons]
      simp [hx]
    · rw [filter_insertKeyed_neg key k x hx, ih, List.filter_cons]
      simp [beq_eq_false_iff_ne.mpr hx]

theorem getLastD_filter (p : α → Bool) :
    ∀ (l : List α) (d : α), l ≠ [] → p (l.getLastD d) = true →
      (l.filter p).getLastD d = l.getLastD d := by
  intro l
  induction l with
  | nil => intro d h; exact absurd rfl h
  | cons x xs ih =>
    intro d _ hp
    rw [List.getLastD_cons] at hp ⊢
    cases xs with
    | nil =>
      simp only [List.getLastD] at hp ⊢
      simp [List.filter_cons, hp, List.getLastD]
    | cons y ys =>
      have hne : (y :: ys : List α) ≠ [] := by simp
      by_cases hx : p x = true
      · rw [List.filter_cons, if_pos hx, List.getLastD_cons]
        exact ih x hne hp
      · rw [List.filter_cons, if_neg (by simp [hx])]
        rw [getLastD_irrel (y :: ys) hne x d] at hp
        rw [ih d hne hp]
        exact (getLastD_irrel (y :: ys) hne d x).symm.symm ▸
          getLastD_irrel (y :: ys) hne d x

/-- C6: the aggregated description is a most frequent element of the day's
description list, and when several descriptions tie at the maximal frequency,
the selected one is the value of the last-occurring tied element (the stable
ascending sort by count followed by `pop`). -/
theorem c6_most_frequent (l : List String) (h : l ≠ []) :
    getMostFrequent l ∈ l
    ∧ (∀ v ∈ l, l.count v ≤ l.count (getMostFrequent l))
    ∧ getMostFrequent l
        = (l.filter (fun v => l.count v == l.count (getMostFrequent l))).getLastD "" := by
  have hperm := sortKeyed_perm (fun v => l.count v) l
  have hsorted := sortKeyed_sorted (fun v => l.count v) l
  have hne : sortKeyed (fun v => l.count v) l ≠ [] := by
    intro h0
    have hlen := hperm.length_eq
    rw [h0] at hlen
    exact h (List.length_eq_zero.mp hlen.symm)
  have hlast : getMostFrequent l = (sortKeyed (fun v => l.count v) l).getLastD "" := rfl
  have hmem : getMostFrequent l ∈ l := by
    rw [hlast]
    exact hperm.mem_iff.mp (getLastD_mem _ hne "")
  refine ⟨hmem, fun v hv => ?_, ?_⟩
  · have hv2 : v ∈ sortKeyed (fun v => l.count v) l := hperm.mem_iff.mpr hv
    exact sorted_key_le_getLastD (fun v => l.count v) _ hsorted v hv2 ""
  · have hpl : (fun v => l.count v == l.count (getMostFrequent l))
        ((sortKeyed (fun v => l.count v) l).getLastD "") = true := by
      rw [← hlast]
      simp
    rw [← filter_sortKeyed (fun v => l.count v) (l.count (getMostFrequent l)) l]
    rw [getLastD_filter _ _ _ hne hpl]
    exact hlast

/-- C6 witness: on `["a", "b", "a", "c", "b"]` (counts `a:2, b:2, c:1`) the
selected description is the last-occurring of the tied values. -/
theorem c6_most_frequent_witness :
    getMostFrequent ["a", "b", "a", "c", "b"] ∈ ["a", "b", "a", "c", "b"]
    ∧ getMostFrequent ["a", "b", "a", "c", "b"]
        = (["a", "b", "a", "c", "b"].filter
            (fun v => ["a", "b", "a", "c", "b"].count v
              == ["a", "b", "a", "c", "b"].count (getMostFrequent ["a", "b", "a", "c", "b"]))).getLastD ""
    ∧ getMostFrequent ["a", "b", "a", "c", "b"] = "b" :=
  ⟨(c6_most_frequent ["a", "b", "a", "c", "b"] (by decide)).1,
   (c6_most_frequent ["a", "b", "a", "c", "b"] (by decide)).2.2,
   by decide⟩

/-- C10 witness: a valid theme switches, an inherited `Object.prototype` name
is also (wrongly for the original claim) accepted and installed, and a name
that is neither is rejected unchanged. -/
theorem c10_set_theme_witness :
    (setTheme "ocean" initialTemplatesState).1 = true
    ∧ (setTheme "ocean" initialTemplatesState).2.currentTheme = "ocean"
    ∧ (setTheme "toString" initialTemplatesState).2.currentTheme = "toString"
    ∧ (setTheme "unknown-theme" initialTemplatesState).2 = initialTemplatesState :=
  ⟨((c10_set_theme "ocean" initialTemplatesState).1).mpr (Or.inl (by decide)),
   (c10_set_theme "ocean" initialTemplatesState).2.1 (Or.inl (by decide)),
   (c10_set_theme "toString" initialTemplatesState).2.1 (Or.inr (by decide)),
   (c10_set_theme "unknown-theme" initialTemplatesState).2.2.1 (by decide) (by decide)⟩

theorem ratFloor_eq (q : ℚ) : Rat.floor q = ⌊q⌋ := by
  rw [Rat.floor_def', ← Rat.floor_def]

theorem createTempGauge_ok (t : ℚ) : ∃ s, createTempGauge t = Except.ok s := by
  simp only [createTempGauge, jsRepeat]
  have hpct0 : (0 : ℚ) ≤ max 0 (min 100 ((t - (-20)) / (50 - (-20)) * 100)) :=
    le_max_left 0 _
  have hpct1 : max 0 (min 100 ((t - (-20)) / (50 - (-20)) * 100)) ≤ 100 :=
    max_le (by norm_num) (min_le_left _ _)
  have h0 : 0 ≤ Rat.floor (max 0 (min 100 ((t - (-20)) / (50 - (-20)) * 100)) / 5) := by
    rw [ratFloor_eq]
    exact Int.floor_nonneg.mpr (by positivity)
  have h20 : Rat.floor (max 0 (min 100 ((t - (-20)) / (50 - (-20)) * 100)) / 5) ≤ 20 := by
    rw [ratFloor_eq]
    calc ⌊max 0 (min 100 ((t - (-20)) / (50 - (-20)) * 100)) / 5⌋
        ≤ ⌊(20 : ℚ)⌋ := Int.floor_le_floor (by linarith)
      _ = 20 := by norm_num
  rw [if_neg (not_lt.mpr h0), if_neg (not_lt.mpr (by omega))]
  exact ⟨_, rfl⟩

theorem createWindGauge_ok (v : ℚ) : ∃ s, createWindGauge v = Except.ok s := by
  simp only [createWindGauge, jsRepeat]
  have hpct0 : (0 : ℚ) ≤ max 0 (min 100 (v / 30 * 100)) := le_max_left 0 _
  have hpct1 : max 0 (min 100 (v / 30 * 100)) ≤ 100 :=
    max_le (by norm_num) (min_le_left _ _)
  have h0 : 0 ≤ Rat.floor (max 0 (min 100 (v / 30 * 100)) / 5) := by
    rw [ratFloor_eq]
    exact Int.floor_nonneg.mpr (by positivity)
  have h20 : Rat.floor (max 0 (min 100 (v / 30 * 100)) / 5) ≤ 20 := by
    rw [ratFloor_eq]
    calc ⌊max 0 (min 100 (v / 30 * 100)) / 5⌋
        ≤ ⌊(20 : ℚ)⌋ := Int.floor_le_floor (by linarith)
      _ = 20 := by norm_num
  rw [if_neg (not_lt.mpr h0), if_neg (not_lt.mpr (by omega))]
  exact ⟨_, rfl⟩

theorem createHumidityGauge_ok {h : ℚ} (h0 : 0 ≤ h) (h1 : h ≤ 100) :
    ∃ s, createHumidityGauge h = Except.ok s := by
  simp only [createHumidityGauge, jsRepeat]
  have hf0 : 0 ≤ Rat.floor (h / 5) := by
    rw [ratFloor_eq]
    exact Int.floor_nonneg.mpr (by positivity)
  have hf20 : Rat.floor (h / 5) ≤ 20 := by
    rw [ratFloor_eq]
    calc ⌊h / 5⌋ ≤ ⌊(20 : ℚ)⌋ := Int.floor_le_floor (by linarith)
      _ = 20 := by norm_num
  rw [if_neg (not_lt.mpr hf0), if_neg (not_lt.mpr (by omega))]
  exact ⟨_, rfl⟩

theorem renderGauge_default_mock_ok :
    (renderGauge (themeOf "default") mockWeather mockInsights).isOk = true := by
  obtain ⟨s1, h1⟩ := createTempGauge_ok mockWeather.temp
  obtain ⟨s2, h2⟩ := createWindGauge_ok mockWeather.wind_speed
  obtain ⟨s3, h3⟩ := createHumidityGauge_ok
    (h := mockWeather.humidity) (by norm_num [mockWeather]) (by norm_num [mockWeather])
  simp only [renderGauge, h1, h2, h3]
  rfl

/-- C3: the claim is right about the code's intent (the README, the theme
configuration and `getAvailableThemes` advertise all eight themes for all ten
templates) but the code is wrong: the `sunset` theme names the non-existent
chalk style `orange` and the `rainbow` theme the non-existent `rainbow`, so
`chalk[theme.secondary]` is `undefined` and rendering throws a `TypeError` for
every theme-colored template under those two themes.  The remaining pairs
render without throwing, and an unknown template id falls back to the
`classic` template's output. -/
theorem c3_render_theme_bug :
    renderTemplate "classic" (themeOf "sunset") mockWeather none mockInsights
        "10.10.2025, 12:00:00" noRand
      = Except.error "chalk.orange is not a function"
    ∧ renderTemplate "classic" (themeOf "rainbow") mockWeather none mockInsights
        "10.10.2025, 12:00:00" noRand
      = Except.error "chalk.rainbow is not a function"
    ∧ ((templateNames.filter (fun t => t != "gauge")).all (fun t =>
        (chalkSafeThemeKeys.all (fun k =>
          (renderTemplate t (themeOf k) mockWeather (some [mockDay]) mockInsights
            "10.10.2025, 12:00:00" noRand).isOk)))) = true
    ∧ (renderTemplate "gauge" (themeOf "default") mockWeather none mockInsights
        "10.10.2025, 12:00:00" noRand).isOk = true
    ∧ renderTemplate "not-a-template" (themeOf "default") mockWeather none mockInsights
        "10.10.2025, 12:00:00" noRand
      = renderTemplate "classic" (themeOf "default") mockWeather none mockInsights
        "10.10.2025, 12:00:00" noRand := by
  refine ⟨rfl, rfl, rfl, ?_, rfl⟩
  show (renderGauge (themeOf "default") mockWeather mockInsights).isOk = true
  exact renderGauge_default_mock_ok

end BWC
